import Mathlib

/-!
Verification of the MOUNTE-CRISTO file-archive viewer
(`src/Switching&SANDBOXsupport.jsx`): a shallow embedding of the
file-type classifier, the runner-document synthesizer, the sandbox
capability grant, the navigation logic of `VaultPage.handleNavigate`,
and small transition systems for the React state semantics of the
viewer (object-URL lifecycle, run/source mode, asynchronous decode).
-/

set_option maxRecDepth 16384

/-- The render categories of §3 of the design document, derived from the
predicates `isVideo`, `isAudio`, `isImage`, `isPdf`, `isHtml`, `isJsx`,
`isJs`, `isCss`, `isCode` computed in `FileViewer` (lines 460-471). -/
inductive RenderCategory where
  | Video
  | Audio
  | Image
  | Pdf
  | MarkupDocument
  | RunnableJS
  | RunnableCSS
  | RunnableJSX
  | PlainCode
  | Unknown
deriving DecidableEq, Repr

/-- The extension list of `CATEGORIES.Code.exts` (line 19 of the source). -/
def codeExts : List String :=
  ["py", "js", "html", "css", "cpp", "java", "sql", "json", "jsx", "tsx"]

/-- JavaScript `String.prototype.split` with a single-character separator,
modelled on the character list: splitting never yields an empty list
(splitting the empty string yields `[[]]`), exactly as in JS where
`"".split('.')` is `[""]`. -/
def splitChars (sep : Char) : List Char → List (List Char)
  | [] => [[]]
  | c :: cs =>
    match splitChars sep cs with
    | [] => [[]]
    | h :: t => if c = sep then [] :: h :: t else (c :: h) :: t

/-- JavaScript `String.prototype.startsWith`. -/
def jsStartsWith (s pre : String) : Bool :=
  pre.toList.isPrefixOf s.toList

/-- JavaScript `String.prototype.toLowerCase` on one character (ASCII
range; every extension the program tests against is ASCII). -/
def lowerChar (c : Char) : Char :=
  if 65 ≤ c.toNat ∧ c.toNat ≤ 90 then Char.ofNat (c.toNat + 32) else c

/-- The extension computation `file?.name.split('.').pop().toLowerCase()`
(line 461).  `Array.prototype.pop` on an empty array returns `undefined`
and the subsequent `.toLowerCase()` would then throw, so the result is an
`Option`: `none` models the exception. -/
def extOfE (name : String) : Option String :=
  ((splitChars '.' name.toList).getLast?).map
    (fun l => String.mk (l.map lowerChar))

/-- The classification realised by `FileViewer`'s predicates, in the
decision order of the rendering dispatch (lines 463-471 and 653-708):
declared media type first (`video`, `audio`, `image`, `application/pdf`),
then extension tests (`html`/`htm`, `jsx`/`tsx`, `js`, `css`), then the
code-extension set or a `text/` declared type, else unknown.  `none`
models the exception raised when the extension computation throws
(which the totality theorem shows never happens). -/
def classifyE (name type : String) : Option RenderCategory :=
  match extOfE name with
  | none => none
  | some ext =>
    some (if jsStartsWith type ("video") then .Video
      else if jsStartsWith type ("audio") then .Audio
      else if jsStartsWith type ("image") then .Image
      else if type = "application/pdf" then .Pdf
      else if ext = "html" || ext = "htm" then .MarkupDocument
      else if ext = "jsx" || ext = "tsx" then .RunnableJSX
      else if ext = "js" then .RunnableJS
      else if ext = "css" then .RunnableCSS
      else if codeExts.contains ext || jsStartsWith type ("text")
        then .PlainCode
      else .Unknown)

/-- The literal `sandbox` attribute of the execution iframe
(line 678 of the source). -/
def sandboxAttr : String :=
  "allow-scripts allow-modals allow-popups allow-forms allow-same-origin"

/-- The space-separated token set of the sandbox attribute. -/
def sandboxTokens : List String :=
  (splitChars ' ' sandboxAttr.toList).map String.mk

/-- C4: the embedded browsing surface's sandbox capability grant is exactly
the token set `allow-scripts allow-modals allow-popups allow-forms
allow-same-origin`, with no other tokens and in particular no
`allow-top-navigation`. -/
theorem sandbox_grant_exact :
    sandboxTokens =
      ["allow-scripts", "allow-modals", "allow-popups", "allow-forms",
        "allow-same-origin"] ∧
    sandboxTokens.contains ("allow-top-navigation") = false := by
  constructor
  · rfl
  · rfl

/-- C7: the classifier maps the design document's example inputs as stated:
`photo.JPG` with type `image/jpeg` to Image, `clip.mov` with empty type to
Unknown, `index.html` with `text/html` to MarkupDocument, `app.tsx` with
empty type to RunnableScript(JSX), `notes.txt` with `text/plain` to
PlainCode. -/
theorem classify_examples :
    classifyE ("photo.JPG") ("image/jpeg") = some .Image ∧
    classifyE ("clip.mov") ("") = some .Unknown ∧
    classifyE ("index.html") ("text/html") = some .MarkupDocument ∧
    classifyE ("app.tsx") ("") = some .RunnableJSX ∧
    classifyE ("notes.txt") ("text/plain") = some .PlainCode := by
  decide

/-- Splitting a character list never yields an empty list of pieces, so the
JavaScript `pop()` of the split always finds an element. -/
theorem splitChars_ne_nil (sep : Char) (l : List Char) :
    splitChars sep l ≠ [] := by
  induction l with
  | nil => simp [splitChars]
  | cons c cs ih =>
    simp only [splitChars]
    cases h : splitChars sep cs with
    | nil => simp
    | cons hd tl =>
      by_cases hc : c = sep <;> simp [hc]

/-- A list containing no separator splits into the single piece that is
the whole list. -/
theorem splitChars_of_not_mem (sep : Char) (l : List Char)
    (h : sep ∉ l) : splitChars sep l = [l] := by
  induction l with
  | nil => rfl
  | cons c cs ih =>
    simp only [List.mem_cons, not_or] at h
    simp only [splitChars, ih h.2]
    simp [Ne.symm h.1]

/-- C5 counterexample: a name containing no dot need not fail every
extension test — for the dotless name `css` (empty declared media type)
the whole name becomes the extension and hits the `ext === 'css'` test
(line 470), classifying as RunnableScript(CSS) rather than falling
through to Unknown. -/
theorem classify_no_dot_counterexample :
    ('.' ∉ ("css").toList) ∧
      classifyE ("css") ("") = some RenderCategory.RunnableCSS ∧
      RenderCategory.RunnableCSS ≠ RenderCategory.Unknown := by
  decide

/-- C5 amended: classification is total — for every
`(name, declaredMediaType)` pair `classifyE` returns exactly one category
and never the exception marker; for a name containing no dot the extension
is the entire name (lower-cased), which is then subjected to the extension
tests like any other extension (so such an input lands in exactly one
non-throwing category, Unknown at worst, but the extension tests do not
necessarily all fail). -/
theorem classify_total (name type : String) :
    (∃ c, classifyE name type = some c) ∧
      ('.' ∉ name.toList →
        extOfE name = some (String.mk (name.toList.map lowerChar))) := by
  constructor
  · have h : (splitChars '.' name.toList).getLast?.isSome := by
      rw [List.getLast?_isSome]
      exact splitChars_ne_nil _ _
    obtain ⟨l, hl⟩ := Option.isSome_iff_exists.mp h
    unfold classifyE extOfE
    rw [hl]
    exact ⟨_, rfl⟩
  · intro hnd
    unfold extOfE
    rw [splitChars_of_not_mem _ _ hnd]
    rfl

/-- Witness for the totality theorem at the extensionless name
`makefile` with an empty declared media type. -/
theorem classify_total_no_dot_witness :
    ('.' ∉ ("makefile").toList) ∧
      extOfE ("makefile") =
        some (String.mk (("makefile").toList.map lowerChar)) :=
  ⟨by decide, (classify_total ("makefile") ("")).2 (by decide)⟩

/-- JavaScript `Array.prototype.indexOf`: the first index of `x` in `l`,
or `-1` when absent.  Files are modelled by numeric identities because the
source list holds distinct `File` objects compared by reference. -/
def jsIndexOf (l : List Nat) (x : Nat) : Int :=
  if x ∈ l then (l.indexOf x : Int) else -1

/-- The two sequential reassignments of `nextIndex` in `handleNavigate`
(lines 769-771): `if (nextIndex >= filteredFiles.length) nextIndex = 0;
if (nextIndex < 0) nextIndex = filteredFiles.length - 1;` — when the first
branch fires it sets `0`, which the second test never changes, so the pair
collapses to this nested conditional. -/
def wrapIndex (len : Nat) (n1 : Int) : Int :=
  if (len : Int) ≤ n1 then 0
  else if n1 < 0 then (len : Int) - 1
  else n1

/-- `VaultPage.handleNavigate` (lines 763-774): no-op when no file is open,
when the filtered ordering has at most one entry, or when the open file is
not found in the ordering; otherwise move `direction` steps with circular
wraparound. -/
def handleNavigate (filteredFiles : List Nat) (direction : Int)
    (viewingFile : Option Nat) : Option Nat :=
  match viewingFile with
  | none => none
  | some v =>
    if filteredFiles.length ≤ 1 then some v
    else if jsIndexOf filteredFiles v = -1 then some v
    else
      some (filteredFiles.getD
        (wrapIndex filteredFiles.length
          (jsIndexOf filteredFiles v + direction)).toNat 0)

/-- C8: navigation wraps circularly — with `n ≥ 2` (distinct) files and the
viewer open on the last one, navigate(next) moves to the first; from the
first, navigate(prev) moves to the last; with an ordering of 0 or 1 entries
navigation in either direction leaves the active file unchanged. -/
theorem navigate_wraparound (l : List Nat) (h2 : 2 ≤ l.length)
    (hnd : l.Nodup) :
    handleNavigate l 1 (some (l.getLastD 0)) = some (l.headD 0) ∧
    handleNavigate l (-1) (some (l.headD 0)) = some (l.getLastD 0) ∧
    (∀ (l' : List Nat) (dir : Int) (v : Nat), l'.length ≤ 1 →
      handleNavigate l' dir (some v) = some v) := by
  have hn : 0 < l.length := by omega
  have hn1 : l.length - 1 < l.length := by omega
  have hlast : l.getLastD 0 = l[l.length - 1] := by
    rw [List.getLastD_eq_getLast?, List.getLast?_eq_getElem?,
      List.getElem?_eq_getElem hn1]
    rfl
  have hhead : l.headD 0 = l[0] := by
    rw [List.headD_eq_head?, List.head?_eq_getElem?,
      List.getElem?_eq_getElem hn]
    rfl
  have hidxlast : jsIndexOf l (l[l.length - 1]) = ((l.length - 1 : ℕ) : ℤ) := by
    unfold jsIndexOf
    rw [if_pos (l.getElem_mem hn1), List.indexOf_getElem hnd]
  have hidxhead : jsIndexOf l (l[0]) = 0 := by
    unfold jsIndexOf
    rw [if_pos (l.getElem_mem hn), List.indexOf_getElem hnd]
    rfl
  refine ⟨?_, ?_, ?_⟩
  · rw [hlast, hhead]
    simp only [handleNavigate]
    rw [if_neg (by omega), if_neg (by rw [hidxlast]; omega), hidxlast]
    have hw : wrapIndex l.length (((l.length - 1 : ℕ) : ℤ) + 1) = 0 := by
      unfold wrapIndex
      rw [if_pos (by omega)]
    rw [hw]
    simp only [Int.toNat_zero, List.getD_eq_getElem?_getD,
      List.getElem?_eq_getElem hn, Option.getD_some]
  · rw [hlast, hhead]
    simp only [handleNavigate]
    rw [if_neg (by omega), if_neg (by rw [hidxhead]; omega), hidxhead]
    have hw : wrapIndex l.length (0 + (-1)) = (l.length : Int) - 1 := by
      unfold wrapIndex
      rw [if_neg (by omega), if_pos (by omega)]
    rw [hw]
    have ht : ((l.length : Int) - 1).toNat = l.length - 1 := by omega
    rw [ht]
    simp only [List.getD_eq_getElem?_getD, List.getElem?_eq_getElem hn1,
      Option.getD_some]
  · intro l' dir v h1
    simp only [handleNavigate]
    rw [if_pos h1]

/-- Witness for the wraparound theorem at the three-element ordering
`[10, 20, 30]`. -/
theorem navigate_wraparound_witness :
    2 ≤ ([10, 20, 30] : List Nat).length ∧
      ([10, 20, 30] : List Nat).Nodup ∧
      handleNavigate [10, 20, 30] 1
          (some (([10, 20, 30] : List Nat).getLastD 0)) =
        some (([10, 20, 30] : List Nat).headD 0) :=
  ⟨by decide, by decide,
    (navigate_wraparound [10, 20, 30] (by decide) (by decide)).1⟩

/-- C10: if the currently viewed file is not a member of the caller-supplied
filtered ordering (its index lookup yields `-1`), navigation in either
direction is a no-op: the active file is left unchanged. -/
theorem navigate_missing_file_noop (l : List Nat) (dir : Int) (v : Nat)
    (hv : v ∉ l) : handleNavigate l dir (some v) = some v := by
  simp only [handleNavigate]
  by_cases h1 : l.length ≤ 1
  · rw [if_pos h1]
  · rw [if_neg h1, if_pos]
    unfold jsIndexOf
    rw [if_neg hv]

/-- Witness for the missing-file no-op theorem: file `5` is not in the
ordering `[1, 2, 3]`. -/
theorem navigate_missing_file_noop_witness :
    (5 ∉ ([1, 2, 3] : List Nat)) ∧
      handleNavigate [1, 2, 3] 1 (some 5) = some 5 :=
  ⟨by decide, navigate_missing_file_noop [1, 2, 3] 1 5 (by decide)⟩

/-- The joint state of `VaultPage.viewingFile` and the mounted
`FileViewer`'s `runCode` local state (line 474).  `FileViewer` is rendered
without a `key` prop (lines 899-908), so React preserves the component
instance — and hence `runCode` — whenever `viewingFile` changes from one
file to another; `runCode` is re-initialised to `false` only when the
viewer mounts after having been closed (`viewingFile` was `null`). -/
structure VaultState where
  viewing : Option Nat
  runCode : Bool
deriving DecidableEq, Repr

/-- Opening a file from the grid (`setViewingFile(file)`, line 872): if the
viewer was closed, `FileViewer` mounts fresh and `useState(false)` gives
`runCode = false`; if it was already open, the instance persists. -/
def openViewer (f : Nat) (s : VaultState) : VaultState :=
  { viewing := some f,
    runCode := if s.viewing.isSome then s.runCode else false }

/-- Closing the viewer (`setViewingFile(null)`, line 903): `FileViewer`
unmounts and its local state is discarded. -/
def closeViewer (_s : VaultState) : VaultState :=
  { viewing := none, runCode := false }

/-- A navigation step: `handleNavigate` replaces `viewingFile`; the option
never becomes `none` here, so the `FileViewer` stays mounted and its
`runCode` state carries over unchanged. -/
def navStep (filteredFiles : List Nat) (direction : Int)
    (s : VaultState) : VaultState :=
  { viewing := handleNavigate filteredFiles direction s.viewing,
    runCode := s.runCode }

/-- C2 counterexample: with files `[0, 1]`, file `0` open in Run mode,
navigate(next) moves to file `1` but the viewer is still in Run mode — the
claimed reset to Source mode does not happen. -/
theorem mode_reset_counterexample :
    (navStep [0, 1] 1 ⟨some 0, true⟩).viewing = some 1 ∧
      (navStep [0, 1] 1 ⟨some 0, true⟩).runCode ≠ false := by
  decide

/-- C2 amended: navigation preserves the source-vs-run mode (the viewer
component stays mounted across navigation, so Run mode carries over to the
new file); Source mode is guaranteed only when the viewer is opened from
the closed state. -/
theorem mode_preserved_on_navigate (filteredFiles : List Nat)
    (direction : Int) (s : VaultState) (f : Nat) :
    (navStep filteredFiles direction s).runCode = s.runCode ∧
      (openViewer f (closeViewer s)).runCode = false :=
  ⟨rfl, rfl⟩

/-- An event of the asynchronous text-decode subsystem in `FileViewer`
(lines 495-501). -/
inductive DecodeEvent where
  | view (f : Nat)
  | resolve (f : Nat) (text : String)
deriving DecidableEq, Repr

/-- The decode-relevant state.  `codeContent` is tagged with the file whose
`FileReader` produced it (a ghost annotation; the source stores only the
string).  `pending` holds files whose readers have been started but whose
`onload` has not fired. -/
structure DecodeState where
  activeFile : Option Nat
  codeContent : Option (Nat × String)
  pending : List Nat
deriving DecidableEq, Repr

/-- One step of the decode subsystem.  `view f` models the effect with
dependency `[file, ...]` re-running for a code-like file: a new
`FileReader` is created and `readAsText` started; previous readers are not
cancelled.  `resolve f text` models that reader's `onload`, whose handler
is `(e) => setCodeContent(e.target.result)` — it commits the result
unconditionally, with no check that `f` is still the active file. -/
def decodeStep (s : DecodeState) : DecodeEvent → DecodeState
  | .view f => { s with activeFile := some f, pending := s.pending ++ [f] }
  | .resolve f text =>
    if f ∈ s.pending then
      { s with codeContent := some (f, text), pending := s.pending.erase f }
    else s

/-- Run the decode subsystem from the initial state (no file open,
`codeContent = null`). -/
def decodeRun (events : List DecodeEvent) : DecodeState :=
  events.foldl decodeStep ⟨none, none, []⟩

/-- C3 failing execution: file `0` is opened (decode started), the viewer
switches to file `1` before that decode resolves, then file `0`'s decode
resolves — the committed `codeContent` is file `0`'s text while the active
file is `1`, so the viewer displays decoded text belonging to a file that
is no longer the active one. -/
theorem stale_decode_displayed :
    (decodeRun [.view 0, .view 1,
        .resolve 0 ("const a = 1;")]).activeFile = some 1 ∧
      (decodeRun [.view 0, .view 1,
        .resolve 0 ("const a = 1;")]).codeContent =
        some (0, ("const a = 1;")) := by
  decide

/-- Object-URL bookkeeping for one `FileViewer` lifetime.  `created` and
`revoked` count the `URL.createObjectURL` / `URL.revokeObjectURL` calls
made by the `useObjectUrl` hook for the display slot (lines 33-42);
`runnerCreated` and `runnerRevoked` count the blob URLs produced by
`getRunnerSrc` for synthesized runner documents (lines 522, 541, 592).
The source contains no `URL.revokeObjectURL` call for runner URLs, so no
transition increments `runnerRevoked`. -/
structure RefState where
  displayLive : Bool
  created : Nat
  revoked : Nat
  runnerCreated : Nat
  runnerRevoked : Nat
deriving DecidableEq, Repr

/-- Lifecycle events of the viewer's object references.  `mount`: the
`useObjectUrl` effect runs for the first file.  `switchFile`: the `file`
prop changes, so the effect cleanup revokes the old URL and the re-run
creates a new one.  `unmount`: the viewer closes or the page unmounts; the
cleanup revokes the display URL.  `memoRecompute runnable`: the
`useMemo(() => getRunnerSrc(), [runCode, codeContent])` (line 597) re-runs
after one of its dependencies changed; when the file is a runnable dialect
with decoded content (`runnable = true`), `getRunnerSrc` calls
`URL.createObjectURL` on a fresh `Blob`. -/
inductive RefEvent where
  | mount
  | switchFile
  | unmount
  | memoRecompute (runnable : Bool)
deriving DecidableEq, Repr

/-- One lifecycle step, as the source performs it. -/
def refStep (s : RefState) : RefEvent → RefState
  | .mount => { s with displayLive := true, created := s.created + 1 }
  | .switchFile => { s with revoked := s.revoked + 1, created := s.created + 1 }
  | .unmount => { s with displayLive := false, revoked := s.revoked + 1 }
  | .memoRecompute runnable =>
    if runnable then { s with runnerCreated := s.runnerCreated + 1 } else s

/-- Run the reference lifecycle from the initial state. -/
def refRun (events : List RefEvent) : RefState :=
  events.foldl refStep ⟨false, 0, 0, 0, 0⟩

/-- C1 failing execution: a `.js` file is opened (`mount`; the initial memo
pass finds `codeContent` still null, creating nothing), its decode resolves
(`codeContent` changes, the memo re-runs and creates a runner URL), the
user toggles Run (`runCode` changes, the memo re-runs and creates a second
runner URL), then the viewer closes.  Two runner references were created
and zero revoked — references are not revoked exactly once at the earliest
of file switch, viewer close, or page unmount. -/
theorem runner_refs_never_revoked :
    (refRun [.mount, .memoRecompute false, .memoRecompute true,
        .memoRecompute true, .unmount]).runnerCreated = 2 ∧
      (refRun [.mount, .memoRecompute false, .memoRecompute true,
        .memoRecompute true, .unmount]).runnerRevoked = 0 ∧
      (refRun [.mount, .memoRecompute false, .memoRecompute true,
          .memoRecompute true, .unmount]).created +
        (refRun [.mount, .memoRecompute false, .memoRecompute true,
          .memoRecompute true, .unmount]).runnerCreated ≠
      (refRun [.mount, .memoRecompute false, .memoRecompute true,
          .memoRecompute true, .unmount]).revoked +
        (refRun [.mount, .memoRecompute false, .memoRecompute true,
          .memoRecompute true, .unmount]).runnerRevoked := by
  decide

/-- The JavaScript regular-expression character class `\s` (whitespace),
used by the `/export\s+default\s+/g` pattern on line 546. -/
def isJsWs (c : Char) : Bool :=
  c.toNat = 32 || c.toNat = 9 || c.toNat = 10 || c.toNat = 11 ||
  c.toNat = 12 || c.toNat = 13 || c.toNat = 160 || c.toNat = 0x1680 ||
  (0x2000 ≤ c.toNat && c.toNat ≤ 0x200A) || c.toNat = 0x2028 ||
  c.toNat = 0x2029 || c.toNat = 0x202F || c.toNat = 0x205F ||
  c.toNat = 0x3000 || c.toNat = 0xFEFF

/-- Consume an exact literal from the front of a character list. -/
def dropLit : List Char → List Char → Option (List Char)
  | [], l => some l
  | _ :: _, [] => none
  | p :: ps, c :: cs => if c = p then dropLit ps cs else none

/-- Match the pattern `export\s+default\s+` at the head of the list,
returning the remainder after the match.  The greedy `\s+` needs no
backtracking here because no whitespace character can begin `default`
or follow the final quantifier. -/
def matchED (l : List Char) : Option (List Char) :=
  match dropLit (("export").toList) l with
  | none => none
  | some l1 =>
    match l1 with
    | [] => none
    | c :: cs =>
      if isJsWs c then
        match dropLit (("default").toList) (cs.dropWhile isJsWs) with
        | none => none
        | some l2 =>
          match l2 with
          | [] => none
          | d :: ds => if isJsWs d then some (ds.dropWhile isJsWs) else none
      else none

/-- JavaScript `String.prototype.replace` with the global pattern
`/export\s+default\s+/g` and empty replacement: scan left to right,
deleting each match and resuming after it.  Fuelled by the input length,
which suffices because every step consumes at least one character. -/
def replaceEDFuel : Nat → List Char → List Char
  | 0, l => l
  | _ + 1, [] => []
  | n + 1, c :: cs =>
    match matchED (c :: cs) with
    | some rest => replaceEDFuel n rest
    | none => c :: replaceEDFuel n cs

/-- Whether the pattern `export\s+default\s+` matches anywhere in the list. -/
def hasED : List Char → Bool
  | [] => false
  | c :: cs => (matchED (c :: cs)).isSome || hasED cs

/-- The `cleanCode` computation of `getRunnerSrc` (line 546):
`codeContent.replace(/export\s+default\s+/g, '')`. -/
def cleanCode (s : String) : String :=
  String.mk (replaceEDFuel s.toList.length s.toList)

/-- The JSX runner template before the `${cleanCode}` interpolation
(lines 548-567 of the source, transcribed byte for byte). -/
def jsxRunnerPre : String :=
  "\n        <!DOCTYPE html>\n        <html>\n        <head>\n          <meta charset=\"UTF-8\" />\n          <script src=\"https://unpkg.com/react@18/umd/react.development.js\"></script>\n          <script src=\"https://unpkg.com/react-dom@18/umd/react-dom.development.js\"></script>\n          <script src=\"https://unpkg.com/@babel/standalone/babel.min.js\"></script>\n          <style>body \x7b margin: 0; font-family: sans-serif; color: #eaddcf; background: #0d0907; overflow: hidden; \x7d </style>\n        </head>\n        <body>\n          <div id=\"root\"></div>\n          <script type=\"text/babel\">\n            // Error overlay\n            window.onerror = function(msg, url, line) \x7b\n              document.body.innerHTML += \x27<div style=\"color:red; padding:20px;\">Error: \x27 + msg + \x27 line \x27 + line + \x27</div>\x27;\n            \x7d;\n\n            // User Code\n            "

/-- The JSX runner template after the `${cleanCode}` interpolation
(lines 567-591 of the source, transcribed byte for byte). -/
def jsxRunnerPost : String :=
  "\n            \n            // Auto-mount logic\n            try \x7b\n                const rootElement = document.getElementById(\x27root\x27);\n                const root = ReactDOM.createRoot(rootElement);\n                \n                // Heuristic: If there\x27s an \x27App\x27 component, render it.\n                if (typeof App !== \x27undefined\x27) \x7b\n                    root.render(<App />);\n                \x7d else \x7b\n                    // If no App, maybe they just wrote some JSX that rendered itself? \n                    // Or they defined \x27Main\x27? Let\x27s warn if empty.\n                    if(rootElement.innerHTML === \"\") \x7b\n                        // root.render(<div style=\"padding:20px; color: #888\">No \"App\" component found. Define <code>function App() \x7b\x7d</code> to render.</div>);\n                    \x7d\n                \x7d\n            \x7d catch(e) \x7b\n                console.error(\"Mount error:\", e);\n                document.body.innerHTML += \x27<div style=\"color:red; padding:20px;\">Mount Error: \x27 + e.message + \x27</div>\x27;\n            \x7d\n          </script>\n        </body>\n        </html>\n      "

/-- The JSX branch of `getRunnerSrc` (lines 543-592): the synthesized
runner document embeds `cleanCode codeContent` between the two fixed
template halves. -/
def getRunnerSrcJsx (codeContent : String) : String :=
  jsxRunnerPre ++ cleanCode codeContent ++ jsxRunnerPost

/-- The global replacement leaves an input without any match unchanged. -/
theorem replaceEDFuel_id : ∀ (l : List Char) (n : Nat),
    hasED l = false → replaceEDFuel n l = l := by
  intro l
  induction l with
  | nil => intro n h; cases n <;> rfl
  | cons c cs ih =>
    intro n h
    simp only [hasED, Bool.or_eq_false_iff] at h
    cases n with
    | zero => rfl
    | succ m =>
      simp only [replaceEDFuel]
      cases hm : matchED (c :: cs) with
      | some r => rw [hm] at h; simp at h
      | none => exact congrArg (c :: ·) (ih m h.2)

/-- C6 counterexample: for an input whose only `export default` token
sequence lies inside a string literal, the synthesizer removes it anyway —
the text is not preserved verbatim in the synthesized document. -/
theorem strip_in_string_counterexample :
    cleanCode ("const s = \x27export default A\x27;") ≠
        ("const s = \x27export default A\x27;") ∧
      cleanCode ("const s = \x27export default A\x27;") =
        ("const s = \x27A\x27;") := by
  constructor
  · decide
  · decide

/-- C6 amended: the JSX synthesizer strips every occurrence of the token
sequence `export` whitespace `default` whitespace by global textual
removal — including occurrences inside strings or comments — before
embedding the result in the runner document; input containing no such
occurrence is embedded verbatim. -/
theorem strip_global_textual (t : String) :
    getRunnerSrcJsx t = jsxRunnerPre ++ cleanCode t ++ jsxRunnerPost ∧
      (hasED t.toList = false → cleanCode t = t) := by
  refine ⟨rfl, fun h => ?_⟩
  unfold cleanCode
  rw [replaceEDFuel_id _ _ h]
  cases t with
  | mk d => rfl

/-- Witness for the amended strip theorem on an input with no match. -/
theorem strip_global_textual_witness :
    hasED (("const x = 1;").toList) = false ∧
      cleanCode ("const x = 1;") = ("const x = 1;") :=
  ⟨by decide, (strip_global_textual ("const x = 1;")).2 (by decide)⟩

/-- The JS runner template before the `${codeContent}` interpolation
(lines 508-518 of the source, transcribed byte for byte). -/
def jsRunnerPre : String :=
  "\n        <!DOCTYPE html>\n        <html>\n        <head><style>body\x7bmargin:0;color:#eaddcf;background:#0d0907;font-family:monospace;padding:20px;\x7d</style></head>\n        <body>\n          <div id=\"console\"></div>\n          <script>\n            const log = (msg) => document.getElementById(\x27console\x27).innerHTML += \x27<div>> \x27 + msg + \x27</div>\x27;\n            console.log = log;\n            try \x7b\n              "

/-- The JS runner template after the `${codeContent}` interpolation
(lines 518-521 of the source, transcribed byte for byte). -/
def jsRunnerPost : String :=
  "\n            \x7d catch (e) \x7b log(\x27Error: \x27 + e.message); \x7d\n          </script>\n        </body></html>"

/-- The JS branch of `getRunnerSrc` (lines 506-522): the synthesized
runner document embeds the decoded text between the two fixed template
halves. -/
def getRunnerSrcJs (codeContent : String) : String :=
  jsRunnerPre ++ codeContent ++ jsRunnerPost

/-- Whether `pat` occurs as a contiguous segment of the list. -/
def containsSeg (pat : List Char) : List Char → Bool
  | [] => pat.isEmpty
  | c :: cs => pat.isPrefixOf (c :: cs) || containsSeg pat cs

/-- C9: for every decoded JS input text, the synthesized runner document
embeds the user text between a prefix that declares the visible console
region, redefines the console-log sink to append into it, and opens a
local `try` block, and a suffix that begins with the matching `catch`
clause appending a formatted error line — so a caught error is logged into
the document instead of propagating out of the embedded context. -/
theorem js_runner_error_capture (code : String) :
    getRunnerSrcJs code = jsRunnerPre ++ code ++ jsRunnerPost ∧
      containsSeg (("<div id=\"console\"></div>").toList)
        jsRunnerPre.toList = true ∧
      containsSeg
        (("const log = (msg) => document.getElementById(\x27console\x27).innerHTML += \x27<div>> \x27 + msg + \x27</div>\x27;").toList)
        jsRunnerPre.toList = true ∧
      containsSeg (("console.log = log;").toList)
        jsRunnerPre.toList = true ∧
      List.isSuffixOf (("try \x7b\n              ").toList)
        jsRunnerPre.toList = true ∧
      List.isPrefixOf
        (("\n            \x7d catch (e) \x7b log(\x27Error: \x27 + e.message); \x7d").toList)
        jsRunnerPost.toList = true :=
  ⟨rfl, by decide, by decide, by decide, by decide, by decide⟩
